import Mathlib

/-!
Verification of the Swarming task scheduling and dispatch subsystem.

The definitions below are shallow embeddings of the request handlers of
`handlers_api.py` (appengine/swarming), `handlers_frontend.py`
(services/swarming) and of the bot main loop `bot_main.py`
(appengine/swarming/swarming_bot/bot_code).  External collaborators
(datastore primitives, the task scheduler module, bot management) are
passed in as explicit inputs; Python truthiness is modelled explicitly
where the source relies on it.
-/

namespace Swarming

/-! ## Python value modelling -/

/-- A JSON value appearing inside the `dimensions` dict of a bot request.
Each constructor matches concrete Python/JSON values with exactly the
behaviour modelled here for the operations the handlers perform:
`strList` a list of unicode strings, `str` a unicode string, `boolV` a
JSON boolean. -/
inductive DimValue where
  | strList (vs : List String)
  | str (s : String)
  | boolV (b : Bool)
deriving DecidableEq

/-- Python truthiness of a `DimValue`: empty list, empty string and
`False` are falsy. -/
def DimValue.truthy : DimValue → Bool
  | .strList vs => !vs.isEmpty
  | .str s => s ≠ ""
  | .boolV b => b

/-- Truthiness of `dict.get(k)`: an absent key yields `None`, which is falsy. -/
def truthyOptDim : Option DimValue → Bool
  | none => false
  | some v => v.truthy

/-- The dimensions dict of a bot request: dimension key to value. -/
abbrev Dimensions := List (String × DimValue)

/-- `d.get(k)`: first binding of `k` in the dict, if any. -/
def dictGet (d : Dimensions) (k : String) : Option DimValue :=
  (d.find? (fun kv => kv.1 = k)).map Prod.snd

/-! ## Key-set validation helpers (handlers_api.py lines 29-74) -/

/-- `log_unexpected_subset_keys(expected, minimum, actual, ...)`: returns a
message when a key outside `expected` is present or a key of `minimum` is
absent, `none` otherwise.  The handlers only branch on whether a message
was produced, so the message text is a fixed placeholder. -/
def logUnexpectedSubsetKeys (expected minimum actual : List String) :
    Option String :=
  let superfluous := actual.filter (fun k => !expected.contains k)
  let missing := minimum.filter (fun k => !actual.contains k)
  if !superfluous.isEmpty || !missing.isEmpty then
    some "unexpected keys; did you make a typo?"
  else
    none

/-- `log_unexpected_keys(expected, actual, ...)` delegates to
`log_unexpected_subset_keys` with `minimum = expected`. -/
def logUnexpectedKeys (expected actual : List String) : Option String :=
  logUnexpectedSubsetKeys expected expected actual

/-! ## Task lifecycle state (C1) -/

/-- Modelled from the spec: the task state enumeration lives in
`server/task_result.py`, which is not among the sources (the handlers
only reference `task_result.State.CANCELED`).  Spec section 3 and 4.5
list the states PENDING, RUNNING, COMPLETED, TIMED_OUT, BOT_DIED,
EXPIRED, CANCELED. -/
inductive TaskState where
  | PENDING
  | RUNNING
  | COMPLETED
  | TIMED_OUT
  | BOT_DIED
  | EXPIRED
  | CANCELED
deriving DecidableEq

/-- Spec section 4.5: the terminal states. -/
def TaskState.isTerminal : TaskState → Bool
  | .COMPLETED => true
  | .TIMED_OUT => true
  | .BOT_DIED => true
  | .EXPIRED => true
  | .CANCELED => true
  | _ => false

/-- The fields of a TaskResultSummary written by the cancel handler. -/
structure TaskResultSummary where
  state : TaskState
  abandonedTs : Option Nat
deriving DecidableEq

/-- Response of `CancelHandler.post` (handlers_frontend.py lines 797-832). -/
inductive CancelResponse where
  | canceled
  | badRequest
deriving DecidableEq

/-- `CancelHandler.post` (handlers_frontend.py lines 797-832): if the `r`
parameter fails to unpack as a result-summary key, responds 400;
otherwise it aborts the TaskToRun and then unconditionally writes
`state = CANCELED` and `abandoned_ts = now` to the TaskResultSummary.
The current state of the summary is never inspected.  The abort of the
owning TaskToRun (an external call into task_to_run) is elided: it does
not touch the summary. -/
def cancelHandlerPost (keyValid : Bool) (summary : TaskResultSummary)
    (now : Nat) : CancelResponse × TaskResultSummary :=
  if !keyValid then
    (.badRequest, summary)
  else
    (.canceled, { state := .CANCELED, abandonedTs := some now })

/-! ## Priority clamping (C4) -/

/-- `ClientRequestHandler.post` (handlers_api.py lines 346-351): the
priority stored into the request dict before `make_request` is called.
`request.get('priority', 255)` defaults an absent priority to 255; a
value below 100 from a caller that is not bot-or-admin is overwritten
with 100. -/
def clientRequestPriority (submitted : Option Int) (isBotOrAdmin : Bool) :
    Option Int :=
  if submitted.getD 255 < 100 && !isBotOrAdmin then some 100 else submitted

/-- `TestRequestHandler.post` (handlers_frontend.py lines 699-702): the
converted request properties always carry a priority; a value below 100
from a caller that is not bot-or-admin is overwritten with 100. -/
def testRequestPriority (submitted : Int) (isBotOrAdmin : Bool) : Int :=
  if submitted < 100 && !isBotOrAdmin then 100 else submitted

/-! ## Bot poll protocol (C5-C8), from BotPollHandler (handlers_api.py lines 493-663) -/

/-- `ACCEPTED_KEYS` of BotPollHandler. -/
def pollAcceptedKeys : List String := ["attributes", "dimensions", "state", "version"]

/-- `EXPECTED_KEYS` of BotPollHandler. -/
def pollExpectedKeys : List String := ["dimensions", "state", "version"]

/-- `bot_id = (dimensions.get('id') or ['unknown'])[0]` (line 523).
A falsy id value (absent key, `None`, `[]`, `''`, `False`) is replaced by
`['unknown']` before indexing; indexing a truthy non-indexable value
such as the JSON boolean `true` raises a TypeError, which escapes the
handler. -/
def botIdOf (dims : Dimensions) : Except Unit String :=
  match dictGet dims "id" with
  | none => .ok "unknown"
  | some (.strList []) => .ok "unknown"
  | some (.strList (v :: _)) => .ok v
  | some (.str s) => if s = "" then .ok "unknown" else .ok (String.singleton s.front)
  | some (.boolV false) => .ok "unknown"
  | some (.boolV true) => .error ()

/-- `quarantined = dimensions.get('quarantined', False)` (line 525),
used for its truthiness. -/
def selfQuarantined (dims : Dimensions) : Bool :=
  truthyOptDim (dictGet dims "quarantined")

/-- Lines 552-556: every dimension value must be a list of unicode
strings (dimension keys are modelled as Lean strings, so the
`isinstance(key, unicode)` half always passes in the embedding). -/
def dimsWellFormed (dims : Dimensions) : Bool :=
  dims.all (fun kv => match kv.2 with
    | .strList _ => true
    | _ => false)

/-- Properties of the TaskRequest returned by a successful reap, as read
by `_cmd_run`. -/
structure TaskProperties where
  commands : List (List String)
  data : List (String × String)
  env : List (String × String)
  executionTimeoutSecs : Nat
  ioTimeoutSecs : Nat
deriving DecidableEq

/-- Result of a successful `task_scheduler.bot_reap_task` call: a request
and the key of the created TaskRunResult (packed as a task id). -/
structure ReapedTask where
  properties : TaskProperties
  runResultId : String
deriving DecidableEq

/-- The manifest sent by `_cmd_run` (lines 626-640). -/
structure Manifest where
  botId : String
  commands : List (List String)
  data : List (String × String)
  env : List (String × String)
  host : String
  hardTimeout : Nat
  ioTimeout : Nat
  taskId : String
deriving DecidableEq

/-- The command vocabulary of the poll wire protocol.  The constructors
cover every `cmd` string the bot-side dispatcher `_poll_server`
(bot_main.py lines 737-792) recognizes; the server handler emits a
subset of them.  `BotCmd.tag` is the JSON `cmd` field. -/
inductive BotCmd where
  | run (manifest : Manifest)
  | sleep (duration : Nat) (quarantined : Bool)
  | update (version : String)
  | restart (message : String)
  | terminate (taskId : String)
deriving DecidableEq

/-- The JSON `cmd` field of a command. -/
def BotCmd.tag : BotCmd → String
  | .run _ => "run"
  | .sleep _ _ => "sleep"
  | .update _ => "update"
  | .restart _ => "restart"
  | .terminate _ => "terminate"

/-- Outcome of one poll: a command reply, or an HTTP error status
(`abort(500)` on datastore deadline, or an exception escaping the
handler, which webapp2 reports as 500). -/
inductive PollOutcome where
  | reply (c : BotCmd)
  | failure (status : Nat)
deriving DecidableEq

/-- Server-side observable effects of a poll: the `quarantined` argument
passed to `bot_management.tag_bot_seen` (line 584-592), if it was
called. -/
structure PollEffects where
  taggedQuarantined : Option Bool
deriving DecidableEq

/-- The inputs of one poll request.  The request body's `state` entry is
modelled as a dict carrying `sleep_streak`. -/
structure PollRequest where
  keys : List String
  dimensions : Dimensions
  version : String
  sleepStreak : Nat
deriving DecidableEq

/-- The external collaborators consulted by BotPollHandler, fixed for
the duration of one request: the current bot version
(`bot_code.get_bot_version`), the dimension-explosion guard
(`task_to_run.MAX_DIMENSIONS` and `task_to_run.dimensions_powerset_count`,
whose module is not among the sources), the sleep backoff
(`task_scheduler.exponential_backoff`), the restart decision
(`bot_management.should_restart_bot`, `some message` when a restart is
needed), the versioned host URL, and the reap result
(`task_scheduler.bot_reap_task`, `none` when no task matched;
`reapDeadline` marks a DeadlineExceededError during the reap). -/
structure ServerEnv where
  expectedVersion : String
  maxDimensions : Nat
  powersetCount : Dimensions → Nat
  exponentialBackoff : Nat → Nat
  shouldRestart : Option String
  versionedHostUrl : String
  reap : Option ReapedTask
  reapDeadline : Bool

/-- `BotPollHandler.post` (handlers_api.py lines 506-624), with
`_cmd_run`, `_cmd_sleep`, `_cmd_update`, `_cmd_restart` (lines 626-663)
inlined.  Control flow in source order: key validation message, bot id
extraction (which can raise), self-quarantine flag, version check,
missing-id check, dimension validation and powerset guard, bot tagging,
restart check, reap. -/
def botPollHandler (env : ServerEnv) (req : PollRequest) :
    PollOutcome × PollEffects :=
  let msg := logUnexpectedSubsetKeys pollAcceptedKeys pollExpectedKeys req.keys
  let dims := req.dimensions
  match botIdOf dims with
  | .error _ => (.failure 500, { taggedQuarantined := none })
  | .ok botId =>
    let quarantined0 := selfQuarantined dims
    if msg.isSome || req.version ≠ env.expectedVersion then
      (.reply (.update env.expectedVersion), { taggedQuarantined := none })
    else if botId = "" then
      (.reply (.sleep (env.exponentialBackoff req.sleepStreak) true),
       { taggedQuarantined := none })
    else
      let quarantined :=
        if !quarantined0 then
          if !dimsWellFormed dims then true
          else decide (env.powersetCount dims > env.maxDimensions)
        else quarantined0
      let effects : PollEffects := { taggedQuarantined := some quarantined }
      if quarantined then
        (.reply (.sleep (env.exponentialBackoff req.sleepStreak) quarantined),
         effects)
      else
        match env.shouldRestart with
        | some m => (.reply (.restart m), effects)
        | none =>
          if env.reapDeadline then (.failure 500, effects)
          else
            match env.reap with
            | none =>
              (.reply (.sleep (env.exponentialBackoff req.sleepStreak) false),
               effects)
            | some t =>
              (.reply (.run {
                  botId := botId,
                  commands := t.properties.commands,
                  data := t.properties.data,
                  env := t.properties.env,
                  host := env.versionedHostUrl,
                  hardTimeout := t.properties.executionTimeoutSecs,
                  ioTimeout := t.properties.ioTimeoutSecs,
                  taskId := t.runResultId }),
               effects)

/-- The `cmd` field of the JSON reply, `none` for an HTTP error. -/
def PollOutcome.cmdTag : PollOutcome → Option String
  | .reply c => some c.tag
  | .failure _ => none

/-! ## Datastore and the task-update transaction (C2),
from BotTaskUpdateHandler (handlers_api.py lines 702-763) -/

/-- A datastore entity, as a key-value pair. -/
abbrev Entity := String × String

/-- The durable store, an external collaborator of the handlers. -/
abbrev Datastore := List Entity

/-- `ndb.put_multi` for one entity: insert or overwrite by key. -/
def putEntity (store : Datastore) (e : Entity) : Datastore :=
  if store.any (fun kv => kv.1 = e.1) then
    store.map (fun kv => if kv.1 = e.1 then e else kv)
  else
    store ++ [e]

/-- `ndb.put_multi(entities)`: write every entity. -/
def putMulti (store : Datastore) (es : List Entity) : Datastore :=
  es.foldl putEntity store

/-- Modelled from the spec: `task_scheduler.bot_update_task` is not
among the sources; per spec section 4.6 it either rejects the update
with a domain error (a ValueError, when the run result is missing, the
bot id does not match, the task is already terminal, or the output
offset is before the tail) or produces the full list of entities the
call must write. -/
inductive BotUpdateOutcome where
  | reject (err : String)
  | entities (es : List Entity)
deriving DecidableEq

/-- One run of `ndb.transaction(lambda: ndb.put_multi(entities))` with
the given remaining attempts: `succeeds n` tells whether attempt `n`
commits or hits contention.  Returns the committed store (or `none`
when every attempt failed) and the number of attempts made.  Each
attempt is atomic: it commits all entities or touches nothing - that is
the contract of the external datastore transaction primitive. -/
def ndbTransactionGo (succeeds : Nat → Bool) (store : Datastore)
    (es : List Entity) : Nat → Nat → Option Datastore × Nat
  | 0, attempts => (none, attempts)
  | fuel + 1, attempts =>
    if succeeds attempts then (some (putMulti store es), attempts + 1)
    else ndbTransactionGo succeeds store es fuel (attempts + 1)

/-- `ndb.transaction(fn, retries=r)`: the initial attempt plus up to `r`
retries. -/
def ndbTransaction (retries : Nat) (succeeds : Nat → Bool)
    (store : Datastore) (es : List Entity) : Option Datastore × Nat :=
  ndbTransactionGo succeeds store es (retries + 1) 0

/-- `ACCEPTED_KEYS` of BotTaskUpdateHandler. -/
def updateAcceptedKeys : List String :=
  ["command_index", "duration", "exit_code", "hard_timeout", "id",
   "io_timeout", "output", "output_chunk_start", "task_id"]

/-- `REQUIRED_KEYS` of BotTaskUpdateHandler. -/
def updateRequiredKeys : List String := ["command_index", "id", "task_id"]

/-- HTTP response of BotTaskUpdateHandler. -/
inductive UpdateResponse where
  | ok
  | badRequest (err : String)
  | serverError (status : Nat)
deriving DecidableEq

/-- Result of one BotTaskUpdateHandler call: the response, the store
after the call, and how many transaction attempts were made. -/
structure UpdateResult where
  response : UpdateResponse
  store : Datastore
  txAttempts : Nat
deriving DecidableEq

/-- `BotTaskUpdateHandler.post` (handlers_api.py lines 714-763): key
validation (400 on message), `unpack_run_result_key` (whose ValueError
is raised outside the try block and surfaces as a 500),
`bot_update_task` (ValueError caught, 400), and the single
`ndb.transaction(lambda: ndb.put_multi(entities), retries=1)` around
all entities of the call; a transaction that still fails after the
retry raises a non-ValueError datastore error, surfacing as 500 with
nothing committed. -/
def botTaskUpdateHandler (keys : List String) (unpackOk : Bool)
    (outcome : BotUpdateOutcome) (txSucceeds : Nat → Bool)
    (store : Datastore) : UpdateResult :=
  match logUnexpectedSubsetKeys updateAcceptedKeys updateRequiredKeys keys with
  | some m => { response := .badRequest m, store := store, txAttempts := 0 }
  | none =>
    if !unpackOk then
      { response := .serverError 500, store := store, txAttempts := 0 }
    else
      match outcome with
      | .reject e =>
        { response := .badRequest e, store := store, txAttempts := 0 }
      | .entities es =>
        match ndbTransaction 1 txSucceeds store es with
        | (some store2, n) =>
          { response := .ok, store := store2, txAttempts := n }
        | (none, n) =>
          { response := .serverError 500, store := store, txAttempts := n }

/-! ## Bot-id checks on task updates and task errors (C3) -/

/-- The fields of a TaskRunResult read by the two handlers below. -/
structure TaskRunResult where
  botId : String
deriving DecidableEq

/-- `EXPECTED_KEYS` of BotTaskErrorHandler. -/
def errorExpectedKeys : List String := ["id", "message", "task_id"]

/-- HTTP response of BotTaskErrorHandler. -/
inductive ErrorHandlerResponse where
  | ok
  | badRequest (err : String)
deriving DecidableEq

/-- `BotTaskErrorHandler.post` (handlers_api.py lines 766-795): key
validation (400 on message), then the caller's id is compared against
the `bot_id` recorded on the TaskRunResult; on mismatch the handler
aborts with 400 before `task_scheduler.bot_kill_task` (the external
mutation, passed as `killTask`) is invoked. -/
def botTaskErrorHandler (keys : List String) (runResult : TaskRunResult)
    (botId : String) (killTask : Datastore → Datastore)
    (store : Datastore) : ErrorHandlerResponse × Datastore :=
  match logUnexpectedKeys errorExpectedKeys keys with
  | some m => (.badRequest m, store)
  | none =>
    if runResult.botId ≠ botId then
      (.badRequest "bot sent task kill for a task owned by another bot", store)
    else
      (.ok, killTask store)

/-- HTTP response of the legacy ResultHandler. -/
inductive FrontendResponse where
  | success
  | notFound (err : String)
deriving DecidableEq

/-- `ResultHandler.post` (handlers_frontend.py lines 1022-1073): the id
sent by the machine posting results is compared against the `bot_id`
recorded on the TaskRunResult; on mismatch the handler aborts with 404
before the results blob is stored and before
`task_scheduler.bot_update_task` (the external mutation, passed as
`updateTask`) is invoked. -/
def resultHandlerPost (runResult : TaskRunResult) (botId : String)
    (updateTask : Datastore → Datastore) (store : Datastore) :
    FrontendResponse × Datastore :=
  if botId ≠ runResult.botId then
    (.notFound "expected bot id does not match", store)
  else
    (.success, updateTask store)

/-! ## Bot main loop (C9), from _run_bot (bot_main.py lines 617-734)
and _poll_server (lines 737-792) -/

/-- The backoff `_poll_server` applies when `remote.poll` raises a
PollError: `delay = max(1, min(60, state.get('sleep_streak', 10) * 2))`
(line 747), with `stateSleepStreak` the value read from the bot state. -/
def pollErrorDelay (stateSleepStreak : Nat) : Nat :=
  max 1 (min 60 (stateSleepStreak * 2))

/-- The loop-local state of `_run_bot`'s while loop: the consecutive
sleep counter and the quit event. -/
structure LoopState where
  consecutiveSleeps : Nat
  quit : Bool
deriving DecidableEq

/-- What one pass through the try block of the loop body amounts to:
`pollError` - `remote.poll` raised a PollError, caught inside
`_poll_server`; `pollValue` - `_poll_server` returned normally
(`quitSet` marks the terminate command, which sets the quit event);
`unexpected` - some call in the try block raised an Exception, caught
by the loop's catch-all; `processEnd` - a self-update exec or host
reboot ended the process (a command outcome, not an error). -/
inductive IterInput where
  | pollError (stateSleepStreak : Nat)
  | pollValue (didSomething : Bool) (quitSet : Bool)
  | unexpected (message : String)
  | processEnd (reason : String)
deriving DecidableEq

/-- What the loop body does before the next `while` check. -/
inductive IterEffect where
  | wait (seconds : Nat)
  | continueNow
  | exitProcess (reason : String)
deriving DecidableEq

/-- One iteration of the while loop of `_run_bot` (lines 710-729):
a PollError leads to a bounded wait inside `_poll_server` and a False
return, so `consecutive_sleeps` is incremented; a normal return resets
or increments the counter; an unexpected exception is logged, posted
via `botobj.post_error` (which traps its own errors), the counter is
reset and the loop waits 10 seconds before polling again. -/
def runBotIteration (s : LoopState) (inp : IterInput) :
    LoopState × IterEffect :=
  match inp with
  | .pollError streak =>
    ({ s with consecutiveSleeps := s.consecutiveSleeps + 1 },
     .wait (pollErrorDelay streak))
  | .pollValue did quitSet =>
    if did then
      ({ consecutiveSleeps := 0, quit := s.quit || quitSet }, .continueNow)
    else
      ({ consecutiveSleeps := s.consecutiveSleeps + 1,
         quit := s.quit || quitSet }, .continueNow)
  | .unexpected _ =>
    ({ s with consecutiveSleeps := 0 }, .wait 10)
  | .processEnd r => (s, .exitProcess r)

/-! ## Bot-side quarantine global (C10), from bot_main.py lines 113-123
and _get_state (lines 262-313) -/

/-- The `_QUARANTINED` module global: `None` at process start. -/
abbrev Quarantine := Option String

/-- `_set_quarantined(reason)` (lines 119-123):
`_QUARANTINED = _QUARANTINED or reason` with Python `or` semantics -
the stored value is kept only when it is truthy (a non-empty string). -/
def setQuarantined (q : Quarantine) (reason : String) : Quarantine :=
  match q with
  | none => some reason
  | some s => if s = "" then some reason else some s

/-- Python truthiness of the `_QUARANTINED` global. -/
def truthyQuarantine : Quarantine → Bool
  | none => false
  | some s => s ≠ ""

/-- The quarantine-reporting fragment of `_get_state` (lines 262-313),
for a hook `get_state()` that returned a dict: when the hook's own
`quarantined` entry is falsy, a blacklisted base directory calls
`_set_quarantined`, then a truthy `_QUARANTINED` is copied into the
state; the free-disk check (its messages passed in as `diskFullMsgs`)
runs only when the state is still not quarantined.  Returns the
reported `quarantined` entry and the updated global. -/
def getStateQuarantineField (hookQuarantined : Option DimValue)
    (baseDirOk : Bool) (diskFullMsgs : List String) (q : Quarantine) :
    Option DimValue × Quarantine :=
  if !truthyOptDim hookQuarantined then
    let q2 :=
      if !baseDirOk then
        setQuarantined q "Cant run from blacklisted directory"
      else q
    let field :=
      match q2 with
      | some s => if s = "" then hookQuarantined else some (.str s)
      | none => hookQuarantined
    if !truthyOptDim field && !diskFullMsgs.isEmpty then
      (some (.str (String.intercalate "\n" diskFullMsgs)), q2)
    else
      (field, q2)
  else
    (hookQuarantined, q)

/-! ## Concrete sample inputs for evaluation -/

/-- A well-behaved server environment for concrete evaluations. -/
def sampleEnv : ServerEnv :=
  { expectedVersion := "deadbeef",
    maxDimensions := 16384,
    powersetCount := fun d => d.length,
    exponentialBackoff := fun n => n + 8,
    shouldRestart := none,
    versionedHostUrl := "https://1-dot-test.example.com",
    reap := none,
    reapDeadline := false }

/-- A concrete reaped task. -/
def sampleTask : ReapedTask :=
  { properties :=
      { commands := [["echo", "hi"]],
        data := [],
        env := [],
        executionTimeoutSecs := 60,
        ioTimeoutSecs := 30 },
    runResultId := "a1b2c3" }

/-- A healthy poll request from bot `bot7` running the current version. -/
def sampleReq : PollRequest :=
  { keys := ["dimensions", "state", "version"],
    dimensions := [("id", .strList ["bot7"]), ("os", .strList ["Linux"])],
    version := "deadbeef",
    sleepStreak := 3 }

/-- A stale-version poll request whose advertised id is the JSON boolean
`true`: `(True or ['unknown'])[0]` raises a TypeError. -/
def crashReq : PollRequest :=
  { keys := ["dimensions", "state", "version"],
    dimensions := [("id", .boolV true)],
    version := "stale",
    sleepStreak := 0 }

/-- A current-version poll request that advertises no `id` dimension at all. -/
def noIdReq : PollRequest :=
  { keys := ["dimensions", "state", "version"],
    dimensions := [("os", .strList ["Linux"])],
    version := "deadbeef",
    sleepStreak := 0 }

/-- A current-version poll request whose advertised id is `['']`, making
the extracted bot id the empty (falsy) string. -/
def emptyIdReq : PollRequest :=
  { keys := ["dimensions", "state", "version"],
    dimensions := [("id", .strList [""]), ("os", .strList ["Linux"])],
    version := "deadbeef",
    sleepStreak := 5 }

/-- The sample environment with a pending matching task. -/
def reapingEnv : ServerEnv := { sampleEnv with reap := some sampleTask }

/-- The manifest `_cmd_run` builds for `sampleTask` handed to `bot7`. -/
def sampleManifest : Manifest :=
  { botId := "bot7",
    commands := [["echo", "hi"]],
    data := [],
    env := [],
    host := "https://1-dot-test.example.com",
    hardTimeout := 60,
    ioTimeout := 30,
    taskId := "a1b2c3" }

/-- The manifest `_cmd_run` builds for `sampleTask` handed to the
placeholder bot id `unknown`. -/
def unknownBotManifest : Manifest :=
  { sampleManifest with botId := "unknown" }

/-- The sample environment with a pathological powerset count above the
configured maximum. -/
def bigDimsEnv : ServerEnv :=
  { sampleEnv with powersetCount := fun _ => 99, maxDimensions := 5 }

end Swarming

namespace Swarming

/-! # Theorems -/

/-- Helper: every command issued by the poll handler carries one of the
tags run, sleep, update, restart. -/
theorem botPollHandler_tag_mem (env : ServerEnv) (req : PollRequest)
    (c : BotCmd) (h : (botPollHandler env req).1 = .reply c) :
    c.tag = "run" ∨ c.tag = "sleep" ∨ c.tag = "update" ∨ c.tag = "restart" := by
  unfold botPollHandler at h
  simp only [] at h
  rcases hb : botIdOf req.dimensions with u | bid <;> rw [hb] at h
  · simp at h
  · repeat' split at h
    all_goals simp only [] at h
    all_goals cases h
    all_goals simp [BotCmd.tag]

/-- C5 (amended): every command the poll handler issues carries one of
the four tags run, sleep, update, restart, and each of the four is
issued under its stated condition, evaluated here at concrete inputs:
run when the reap succeeds, sleep when no task matches, update when the
reported version is stale, restart when the restart check fires.  The
terminate command of the wire protocol is never issued by this
handler. -/
theorem poll_commands_are_run_sleep_update_restart :
    (∀ (env : ServerEnv) (req : PollRequest) (c : BotCmd),
        (botPollHandler env req).1 = .reply c →
        c.tag = "run" ∨ c.tag = "sleep" ∨ c.tag = "update" ∨ c.tag = "restart")
    ∧ (botPollHandler reapingEnv sampleReq).1 = .reply (.run sampleManifest)
    ∧ (botPollHandler sampleEnv sampleReq).1 = .reply (.sleep 11 false)
    ∧ (botPollHandler sampleEnv { sampleReq with version := "old" }).1
        = .reply (.update "deadbeef")
    ∧ (botPollHandler { sampleEnv with shouldRestart := some "Restarting." }
          sampleReq).1 = .reply (.restart "Restarting.") :=
  ⟨botPollHandler_tag_mem, rfl, rfl, rfl, rfl⟩

/-- C5 counterexample: the claim asserts the poll handler issues all
five wire commands, terminate included (for an admin-scheduled bot
shutdown sentinel).  No input at all makes the handler reply with
terminate: the handler's reply code paths are `_cmd_run`, `_cmd_sleep`,
`_cmd_update` and `_cmd_restart` only. -/
theorem poll_never_issues_terminate :
    ¬ ∃ (env : ServerEnv) (req : PollRequest) (tid : String),
        (botPollHandler env req).1 = .reply (.terminate tid) := by
  rintro ⟨env, req, tid, h⟩
  rcases botPollHandler_tag_mem env req _ h with h' | h' | h' | h' <;>
    simp [BotCmd.tag] at h'

/-- C6 counterexample: a poll request whose reported version is stale
but whose advertised `id` dimension is the JSON boolean true makes
`bot_id = (dimensions.get('id') or ['unknown'])[0]` (line 523) raise a
TypeError before the version check (line 533) is reached, so the
response is an HTTP 500 and not the update command. -/
theorem stale_version_crash_counterexample :
    crashReq.version ≠ sampleEnv.expectedVersion
    ∧ (botPollHandler sampleEnv crashReq).1 = .failure 500
    ∧ (botPollHandler sampleEnv crashReq).1.cmdTag ≠ some "update" := by
  refine ⟨by decide, rfl, by decide⟩

/-- C6 (amended): for every poll request whose reported version differs
from the server's current bot version and whose bot-id extraction does
not raise, the response is the update command carrying the expected
version string, regardless of quarantine state, of key-validation
messages, and of pending matching work. -/
theorem stale_version_gets_update (env : ServerEnv) (req : PollRequest)
    (bid : String) (hid : botIdOf req.dimensions = .ok bid)
    (hver : req.version ≠ env.expectedVersion) :
    (botPollHandler env req).1 = .reply (.update env.expectedVersion) := by
  unfold botPollHandler
  simp only []
  rw [hid]
  simp [hver]

/-- C6 witness: a stale-version poll from a healthy bot receives update. -/
theorem stale_version_gets_update_witness :
    (botPollHandler sampleEnv { sampleReq with version := "old" }).1
      = .reply (.update sampleEnv.expectedVersion) :=
  stale_version_gets_update sampleEnv { sampleReq with version := "old" }
    "bot7" rfl (by decide)

/-- C7: a current-version poll (no key-validation message) from a bot
with a truthy id whose dimensions have a powerset count exceeding
MAX_DIMENSIONS is quarantined (tag_bot_seen records quarantined=True)
and receives a sleep command with the quarantined flag set; no task is
offered. -/
theorem too_many_dimensions_quarantine_sleep (env : ServerEnv)
    (req : PollRequest) (bid : String)
    (hkeys : logUnexpectedSubsetKeys pollAcceptedKeys pollExpectedKeys
        req.keys = none)
    (hver : req.version = env.expectedVersion)
    (hid : botIdOf req.dimensions = .ok bid)
    (hbid : bid ≠ "")
    (hcount : env.powersetCount req.dimensions > env.maxDimensions) :
    botPollHandler env req
      = (.reply (.sleep (env.exponentialBackoff req.sleepStreak) true),
         { taggedQuarantined := some true }) := by
  unfold botPollHandler
  simp only []
  rw [hid]
  rcases hq : selfQuarantined req.dimensions <;>
    rcases hw : dimsWellFormed req.dimensions <;>
      simp [hkeys, hver, hbid, hq, hw, hcount]

/-- C7 witness: the guard evaluated on a concrete bot whose powerset
count (99) exceeds the configured maximum (5). -/
theorem too_many_dimensions_quarantine_sleep_witness :
    botPollHandler bigDimsEnv sampleReq
      = (.reply (.sleep (bigDimsEnv.exponentialBackoff sampleReq.sleepStreak)
          true),
         { taggedQuarantined := some true }) :=
  too_many_dimensions_quarantine_sleep bigDimsEnv sampleReq "bot7"
    (by decide) rfl rfl (by decide) (by decide)

/-- C8 counterexample: a current-version poll request that advertises no
`id` dimension at all is given the placeholder bot id `unknown` (line
523), which is truthy, so the handler proceeds through the normal flow
and, with a matching pending task, replies run - not sleep. -/
theorem missing_id_offered_task_counterexample :
    dictGet noIdReq.dimensions "id" = none
    ∧ (botPollHandler reapingEnv noIdReq).1
        = .reply (.run unknownBotManifest)
    ∧ (botPollHandler reapingEnv noIdReq).1.cmdTag ≠ some "sleep" := by
  refine ⟨rfl, rfl, by decide⟩

/-- C8 (amended): a current-version poll (no key-validation message)
whose advertised id value yields the empty bot id (for example
`id = ['']`) receives the sleep command with the quarantined flag set;
a request with no id key at all is instead treated as bot `unknown` and
proceeds through the normal flow. -/
theorem empty_bot_id_gets_sleep (env : ServerEnv) (req : PollRequest)
    (hkeys : logUnexpectedSubsetKeys pollAcceptedKeys pollExpectedKeys
        req.keys = none)
    (hver : req.version = env.expectedVersion)
    (hid : botIdOf req.dimensions = .ok "") :
    (botPollHandler env req).1
      = .reply (.sleep (env.exponentialBackoff req.sleepStreak) true) := by
  unfold botPollHandler
  simp only []
  rw [hid]
  simp [hkeys, hver]

/-- C8 witness: a poll advertising `id = ['']` receives sleep. -/
theorem empty_bot_id_gets_sleep_witness :
    (botPollHandler sampleEnv emptyIdReq).1
      = .reply (.sleep (sampleEnv.exponentialBackoff emptyIdReq.sleepStreak)
          true) :=
  empty_bot_id_gets_sleep sampleEnv emptyIdReq (by decide) rfl rfl

/-- Helper: every run of the retried transaction makes at most
`a + fuel` attempts counting from `a`, and either commits nothing or
commits exactly `putMulti store es`. -/
theorem ndbTransactionGo_spec (succeeds : Nat → Bool) (store : Datastore)
    (es : List Entity) (fuel : Nat) : ∀ a : Nat,
    (ndbTransactionGo succeeds store es fuel a).2 ≤ a + fuel
    ∧ ((ndbTransactionGo succeeds store es fuel a).1 = none
       ∨ (ndbTransactionGo succeeds store es fuel a).1
           = some (putMulti store es)) := by
  induction fuel with
  | zero =>
    intro a
    exact ⟨by simp [ndbTransactionGo],
           Or.inl (by simp [ndbTransactionGo])⟩
  | succ n ih =>
    intro a
    by_cases h : succeeds a = true
    · constructor
      · simp only [ndbTransactionGo]
        rw [if_pos h]
        omega
      · refine Or.inr ?_
        simp only [ndbTransactionGo]
        rw [if_pos h]
    · have hih := ih (a + 1)
      constructor
      · have h1 := hih.1
        simp only [ndbTransactionGo]
        rw [if_neg h]
        omega
      · have h2 := hih.2
        simp only [ndbTransactionGo]
        rw [if_neg h]
        exact h2

/-- C2: every call of the task-update handler makes at most two
transaction attempts (one retry); the store after the call is either
unchanged or holds every entity of the call (all written atomically in
the one transaction, never a strict subset); a successful response
means everything was committed; and a clean request that the update
pipeline rejects gets HTTP 400 with nothing committed. -/
theorem bot_update_transaction_atomic (keys : List String)
    (unpackOk : Bool) (outcome : BotUpdateOutcome)
    (txSucceeds : Nat → Bool) (store : Datastore) :
    (botTaskUpdateHandler keys unpackOk outcome txSucceeds store).txAttempts ≤ 2
    ∧ ((botTaskUpdateHandler keys unpackOk outcome txSucceeds store).store
          = store
       ∨ ∃ es, outcome = .entities es
          ∧ (botTaskUpdateHandler keys unpackOk outcome txSucceeds store).store
              = putMulti store es)
    ∧ ((botTaskUpdateHandler keys unpackOk outcome txSucceeds store).response
          = .ok →
        ∃ es, outcome = .entities es
          ∧ (botTaskUpdateHandler keys unpackOk outcome txSucceeds store).store
              = putMulti store es)
    ∧ (∀ e, logUnexpectedSubsetKeys updateAcceptedKeys updateRequiredKeys keys
          = none →
        unpackOk = true → outcome = .reject e →
        botTaskUpdateHandler keys unpackOk outcome txSucceeds store
          = { response := .badRequest e, store := store, txAttempts := 0 }) := by
  unfold botTaskUpdateHandler
  rcases hmsg : logUnexpectedSubsetKeys updateAcceptedKeys updateRequiredKeys
      keys with _ | m
  · simp only []
    rcases hu : unpackOk with _ | _
    · simp
    · rcases outcome with e | es
      · simp
      · have hspec := ndbTransactionGo_spec txSucceeds store es 2 0
        rcases htx : ndbTransaction 1 txSucceeds store es with ⟨res, n⟩
        have hn : n ≤ 2 := by
          have := hspec.1
          unfold ndbTransaction at htx
          rw [htx] at this
          simpa using this
        have hres : res = none ∨ res = some (putMulti store es) := by
          have := hspec.2
          unfold ndbTransaction at htx
          rw [htx] at this
          simpa using this
        rcases hres with rfl | rfl
        · simp [htx, hn]
        · simp [htx, hn]
  · simp

/-- C2 witness: a clean request rejected by the update pipeline through
`bot_update_transaction_atomic`. -/
theorem bot_update_transaction_atomic_witness :
    botTaskUpdateHandler ["command_index", "id", "task_id"] true
        (.reject "task is terminal") (fun _ => true) [("k1", "v1")]
      = { response := .badRequest "task is terminal",
          store := [("k1", "v1")], txAttempts := 0 } :=
  (bot_update_transaction_atomic ["command_index", "id", "task_id"] true
      (.reject "task is terminal") (fun _ => true) [("k1", "v1")]).2.2.2
    "task is terminal" (by decide) rfl rfl

/-- C3: when the calling bot's id differs from the `bot_id` recorded on
the TaskRunResult, both the task-error handler (HTTP 400) and the
legacy result handler (HTTP 404) reject the request before invoking the
external task mutation, so the store - and hence the task's state - is
unchanged. -/
theorem bot_id_mismatch_rejected (keys : List String) (rr : TaskRunResult)
    (bid : String) (killTask updTask : Datastore → Datastore)
    (s1 s2 : Datastore)
    (hkeys : logUnexpectedKeys errorExpectedKeys keys = none)
    (hne : bid ≠ rr.botId) :
    (∃ m, botTaskErrorHandler keys rr bid killTask s1 = (.badRequest m, s1))
    ∧ (∃ m, resultHandlerPost rr bid updTask s2 = (.notFound m, s2)) := by
  constructor
  · refine ⟨"bot sent task kill for a task owned by another bot", ?_⟩
    unfold botTaskErrorHandler
    rw [hkeys]
    simp [Ne.symm hne]
  · refine ⟨"expected bot id does not match", ?_⟩
    unfold resultHandlerPost
    simp [hne]

/-- C3 witness: bot `bot2` reporting on a task recorded for `bot1` is
rejected by both handlers with the store untouched. -/
theorem bot_id_mismatch_rejected_witness :
    (∃ m, botTaskErrorHandler ["id", "message", "task_id"]
        { botId := "bot1" } "bot2" (fun s => ("killed", "1") :: s) []
          = (.badRequest m, []))
    ∧ (∃ m, resultHandlerPost { botId := "bot1" } "bot2"
        (fun s => ("updated", "1") :: s) [("k", "v")]
          = (.notFound m, [("k", "v")])) :=
  bot_id_mismatch_rejected ["id", "message", "task_id"] { botId := "bot1" }
    "bot2" (fun s => ("killed", "1") :: s) (fun s => ("updated", "1") :: s)
    [] [("k", "v")] (by decide) (by decide)

/-- C9: a PollError from the server or an unexpected exception inside
one loop iteration never ends the bot process: the quit event is left
as it was, no iteration effect is a process exit, and the loop waits a
bounded duration (between 1 and 60 seconds) before the next poll
iteration. -/
theorem server_error_never_exits_loop (s : LoopState) (inp : IterInput)
    (h : (∃ k, inp = .pollError k) ∨ ∃ m, inp = .unexpected m) :
    (runBotIteration s inp).1.quit = s.quit
    ∧ (∀ r, (runBotIteration s inp).2 ≠ .exitProcess r)
    ∧ (∃ d, (runBotIteration s inp).2 = .wait d ∧ 1 ≤ d ∧ d ≤ 60) := by
  rcases h with ⟨k, rfl⟩ | ⟨m, rfl⟩
  · refine ⟨rfl, fun r h' => by simp [runBotIteration] at h',
      ⟨pollErrorDelay k, rfl, ?_, ?_⟩⟩
    · exact Nat.le_max_left 1 _
    · exact Nat.max_le.mpr ⟨by omega, Nat.min_le_left 60 _⟩
  · exact ⟨rfl, fun r h' => by simp [runBotIteration] at h',
      ⟨10, rfl, by omega, by omega⟩⟩

/-- C9 witness: a poll failure at sleep streak 7 waits 14 seconds and
keeps the loop alive. -/
theorem server_error_never_exits_loop_witness :
    (runBotIteration { consecutiveSleeps := 5, quit := false }
        (.pollError 7)).1.quit = false
    ∧ (∀ r, (runBotIteration { consecutiveSleeps := 5, quit := false }
        (.pollError 7)).2 ≠ .exitProcess r)
    ∧ ∃ d, (runBotIteration { consecutiveSleeps := 5, quit := false }
        (.pollError 7)).2 = .wait d ∧ 1 ≤ d ∧ d ≤ 60 :=
  server_error_never_exits_loop { consecutiveSleeps := 5, quit := false }
    (.pollError 7) (Or.inl ⟨7, rfl⟩)

/-- C10 counterexample: `_set_quarantined` called first with the empty
string: the recorded value is later overwritten by a second call (so
the recorded reason is not the first one ever set), and the state
reported to the server in between does not mark the bot quarantined. -/
theorem quarantine_empty_reason_counterexample :
    setQuarantined (setQuarantined none "") "disk failure" = some "disk failure"
    ∧ ("disk failure" : String) ≠ ""
    ∧ truthyOptDim
        (getStateQuarantineField none true [] (setQuarantined none "")).1
        = false := by
  decide

/-- C10 (amended): once `_set_quarantined` has been called with a
non-empty reason, later calls never overwrite the recorded reason, and
every subsequently reported state (for any hook state dict, base
directory status and disk-check outcome) marks the bot quarantined,
with the global left untouched; only a process restart (which resets
the global to None) clears it. -/
theorem quarantine_sticky_nonempty (r : String) (hr : r ≠ "")
    (laterReasons : List String) (hookQ : Option DimValue)
    (baseDirOk : Bool) (diskMsgs : List String) :
    laterReasons.foldl setQuarantined (setQuarantined none r) = some r
    ∧ truthyOptDim
        (getStateQuarantineField hookQ baseDirOk diskMsgs (some r)).1 = true
    ∧ (getStateQuarantineField hookQ baseDirOk diskMsgs (some r)).2
        = some r := by
  have hkeep : ∀ x, setQuarantined (some r) x = some r := by
    intro x
    simp [setQuarantined, hr]
  have hstate : truthyOptDim
        (getStateQuarantineField hookQ baseDirOk diskMsgs (some r)).1 = true
      ∧ (getStateQuarantineField hookQ baseDirOk diskMsgs (some r)).2
        = some r := by
    unfold getStateQuarantineField
    rcases hq : truthyOptDim hookQ with _ | _
    · rcases baseDirOk with _ | _ <;>
        simp [hkeep, truthyOptDim, DimValue.truthy, hr]
    · simp [hq]
  refine ⟨?_, hstate.1, hstate.2⟩
  have hbase : setQuarantined none r = some r := rfl
  rw [hbase]
  induction laterReasons with
  | nil => rfl
  | cons x xs ihx =>
    simp only [List.foldl_cons, hkeep]
    exact ihx

/-- C10 witness: quarantine set with a non-empty reason survives a
later call and is reported in the state. -/
theorem quarantine_sticky_nonempty_witness :
    ["other reason"].foldl setQuarantined (setQuarantined none "hook threw")
      = some "hook threw"
    ∧ truthyOptDim
        (getStateQuarantineField none true [] (some "hook threw")).1 = true
    ∧ (getStateQuarantineField none true [] (some "hook threw")).2
        = some "hook threw" :=
  quarantine_sticky_nonempty "hook threw" (by decide) ["other reason"]
    none true []

/-- C1: the claim states that once a TaskResultSummary is terminal no
operation, the cancel handler included, changes its state.  Evaluating
the embedded `CancelHandler.post` on a COMPLETED summary shows the
handler overwrites the terminal state with CANCELED (and stamps
`abandoned_ts`), contradicting the claim, the spec (section 4.5) and the
handler's own docstring, which says it cancels a runner that is not
already running while the code checks nothing. -/
theorem cancel_handler_overwrites_terminal_state :
    TaskState.isTerminal .COMPLETED = true
    ∧ (cancelHandlerPost true { state := .COMPLETED, abandonedTs := none } 17).2.state
        = .CANCELED
    ∧ (cancelHandlerPost true { state := .COMPLETED, abandonedTs := none } 17).1
        = .canceled
    ∧ TaskState.CANCELED ≠ TaskState.COMPLETED := by
  decide

/-- C4: a submitted priority below 100 from a non-privileged caller (not
bot-or-admin) is silently raised to exactly 100, in both the client API
handler and the legacy test-request handler; a priority of at least 100,
or any priority from a bot-or-admin caller, is kept unchanged. -/
theorem priority_clamp (p : Int) (priv : Bool) :
    (p < 100 → priv = false →
      clientRequestPriority (some p) priv = some 100
      ∧ testRequestPriority p priv = 100)
    ∧ (100 ≤ p →
      clientRequestPriority (some p) priv = some p
      ∧ testRequestPriority p priv = p)
    ∧ (priv = true →
      clientRequestPriority (some p) priv = some p
      ∧ testRequestPriority p priv = p) := by
  refine ⟨fun hlt hpriv => ?_, fun hge => ?_, fun hpriv => ?_⟩
  · subst hpriv
    simp [clientRequestPriority, testRequestPriority, hlt]
  · have : ¬ p < 100 := not_lt.mpr hge
    simp [clientRequestPriority, testRequestPriority, this]
  · subst hpriv
    simp [clientRequestPriority, testRequestPriority]

/-- C4 witness: the clamp evaluated at concrete inputs through
`priority_clamp`. -/
theorem priority_clamp_witness :
    clientRequestPriority (some 30) false = some 100
    ∧ testRequestPriority 30 false = 100
    ∧ clientRequestPriority (some 200) false = some 200
    ∧ clientRequestPriority (some 30) true = some 30 := by
  refine ⟨(priority_clamp 30 false).1 (by decide) rfl |>.1,
          (priority_clamp 30 false).1 (by decide) rfl |>.2,
          (priority_clamp 200 false).2.1 (by decide) |>.1,
          (priority_clamp 30 true).2.2 rfl |>.1⟩

end Swarming
